import Mathlib

/-!
Shallow embedding of `src/downloader_core.py` from the youtube-audio-backend
repository, together with theorems settling the specification claims.

Modelling conventions:
* The filesystem is the content of the output directory: a list of
  `(file name, stat)` pairs in directory-listing order.  All paths handled
  by the program (extractor metadata filepaths, the located download, the
  MP3 target) are interpreted as names in this directory.
* External effects are an environment `Env`: the speed-test outcome, tool
  availability, an extraction oracle indexed by attempt number, the encoder
  subprocess outcome and the stat of the MP3 file it produces on success.
* Python floats are modelled as rationals (`ℚ`).
* Exceptions are `Except String`; the carried string is `str(e)`.
* `print` calls are ignored.  The human-readable size string (floating-point
  formatting) is kept as the raw byte count in the `size` field; no claim
  depends on it.
* The first component of the pipeline result is the trace of spawned
  encoder commands (argv lists).
-/

namespace DownloaderCore

/-- Stat information of a file in the output directory. -/
structure FileInfo where
  size : Nat
  mtime : Nat

/-- The output directory content: `(name, stat)` pairs in listing order. -/
abbrev FS := List (String × FileInfo)

/-- `Path(p).exists()` restricted to the modelled directory. -/
def existsPath (fs : FS) (p : String) : Bool :=
  fs.any (fun e => e.1 == p)

/-- `Path(p).unlink()`: remove the entry named `p`. -/
def erasePath (fs : FS) (p : String) : FS :=
  fs.filter (fun e => !(e.1 == p))

/-- Creation of a new file (used for the encoder writing its output). -/
def createFile (fs : FS) (p : String) (fi : FileInfo) : FS :=
  (p, fi) :: fs

/-- `Path(p).stat().st_size` (0 if absent; the code only stats existing files). -/
def statSize (fs : FS) (p : String) : Nat :=
  (((fs.find? (fun e => e.1 == p)).map (fun e => e.2.size))).getD 0

/-- One entry of the extractor result's `requested_downloads` list. -/
structure ReqDl where
  filepath : Option String

/-- The extractor result dictionary (the fields the program reads). -/
structure Info where
  requested_downloads : Option (List ReqDl)
  filepath : Option String
  title : Option String

/-- One entry of `results["files"]`. -/
structure FileEntry where
  name : String
  type : String
  size : Nat
  format : String

/-- The `results` dictionary returned on success. -/
structure Results where
  title : String
  status : String
  files : List FileEntry

/-- The yt-dlp options dictionary built by the program (lines 90-124). -/
structure YtdlpOpts where
  format : String
  outtmpl : String
  noplaylist : Bool
  quiet : Bool
  no_warnings : Bool
  ignoreerrors : Bool
  postprocessors : List String
  skip_download : Bool
  external_downloader : Option String
  external_downloader_args : List String
  writeinfojson : Bool
  overwrites : Bool
  extract_flat : Bool
  http_headers : List (String × String)
  sleep_interval : Nat
  max_sleep_interval : Nat
  retries : Nat
  fragment_retries : Nat
  skip_unavailable_fragments : Bool
  keep_fragments : Bool
  noprogress : Bool
  progress_hooks : Bool

/-- The external world as observed by one invocation of the pipeline. -/
structure Env where
  /-- Outcome of the speed-test body: `st.results.dict().get("download", 0)`
      wrapped in the raised-or-returned alternative; `none` models a result
      dictionary without a `"download"` key. -/
  speedtest : Except String (Option ℚ)
  aria2cAvailable : Bool
  ffmpegAvailable : Bool
  /-- Extraction oracle: attempt index, url and options to outcome. -/
  extract : Nat → String → YtdlpOpts → Except String Info
  /-- Output directory content once extraction has returned. -/
  fsAfterDownload : FS
  /-- Outcome of the `ffmpeg` subprocess (error carries its stderr). -/
  encoderRun : Except String Unit
  /-- Stat of the MP3 file written by a successful encoder run. -/
  mp3Stat : FileInfo

/-- `CONNECTION_THRESHOLDS` (lines 14-19). -/
def CONNECTION_THRESHOLDS : List (ℚ × Nat) :=
  [(100, 16), (50, 8), (10, 4), (0, 1)]

/-- `choose_connections` (lines 47-51): first threshold met, else 1. -/
def choose_connections (mbps : ℚ) : Nat :=
  match CONNECTION_THRESHOLDS.find? (fun tc => decide (tc.1 ≤ mbps)) with
  | some tc => tc.2
  | none => 1

/-- `measure_download_speed` (lines 37-45): bits-per-second over 10^6, or the
    fixed fallback 10 when the measurement raises. -/
def measure_download_speed (r : Except String (Option ℚ)) : ℚ :=
  match r with
  | Except.error _ => 10
  | Except.ok d => (d.getD 0) / 1000000

/-- `safe_outtmpl` (lines 56-59), minus the directory-creation side effect. -/
def safe_outtmpl (output_dir : String) : String :=
  output_dir ++ "/%(title).200s.%(ext)s"

/-- Python substring containment helper: does the second list start the first? -/
def listStartsWith : List Char → List Char → Bool
  | _, [] => true
  | [], _ :: _ => false
  | c :: cs, p :: ps => (c == p) && listStartsWith cs ps

/-- Python substring containment helper: does `pat` occur contiguously? -/
def listContainsSub (pat : List Char) : List Char → Bool
  | [] => listStartsWith [] pat
  | c :: cs => listStartsWith (c :: cs) pat || listContainsSub pat cs

/-- Python's `pat in msg` on strings. -/
def containsSub (msg pat : String) : Bool :=
  listContainsSub pat.data msg.data

/-- The bot-verification substring tested at line 142. -/
def botPattern : String := "Sign in to confirm you\x27re not a bot"

/-- Error message raised at line 143. -/
def botMsg : String :=
  "YouTube is requesting bot verification. Please try a different video or try again later."

/-- Error message raised at line 145. -/
def privateMsg : String := "This is a private video and cannot be downloaded."

/-- Error message raised at line 147. -/
def unavailableMsg : String := "This video is unavailable or has been removed."

/-- The error classification of the outer `except` block (lines 140-149). -/
def classify_error (msg : String) : String :=
  if containsSub msg botPattern then botMsg
  else if containsSub msg "Private video" then privateMsg
  else if containsSub msg "Video unavailable" then unavailableMsg
  else "Download failed: " ++ msg

/-- The options dictionary of lines 90-124. -/
def mkYtdlpOpts (odir : String) (connections : Nat) (use_aria2 : Bool)
    (hook : Bool) : YtdlpOpts :=
  { format := "bestaudio/best"
    outtmpl := safe_outtmpl odir
    noplaylist := true
    quiet := true
    no_warnings := false
    ignoreerrors := true
    postprocessors := []
    skip_download := false
    external_downloader := if use_aria2 then some "aria2c" else none
    external_downloader_args :=
      if use_aria2 then
        ["-x", toString connections, "-s", toString connections, "-k", "1M"]
      else []
    writeinfojson := false
    overwrites := true
    extract_flat := false
    http_headers :=
      [("User-Agent", "Mozilla/5.0 (Windows NT 10.0; Win64; x64) AppleWebKit/537.36 (KHTML, like Gecko) Chrome/120.0.0.0 Safari/537.36"),
       ("Accept", "text/html,application/xhtml+xml,application/xml;q=0.9,*/*;q=0.8"),
       ("Accept-Language", "en-us,en;q=0.5"),
       ("Accept-Encoding", "gzip,deflate"),
       ("Accept-Charset", "ISO-8859-1,utf-8;q=0.7,*;q=0.7"),
       ("Connection", "keep-alive")]
    sleep_interval := 1
    max_sleep_interval := 2
    retries := 10
    fragment_retries := 10
    skip_unavailable_fragments := true
    keep_fragments := false
    noprogress := true
    progress_hooks := hook }

/-- The retry configuration (lines 135-136): a copy with `quiet=False`. -/
def retryOpts (o : YtdlpOpts) : YtdlpOpts :=
  { o with quiet := false }

/-- The options used by the pipeline: speed measured, connections chosen,
    aria2c delegation decided (lines 73-124). -/
def pipelineOpts (env : Env) (output_dir : Option String) (hook : Bool) : YtdlpOpts :=
  let odir := output_dir.getD "downloads"
  let connections := choose_connections (measure_download_speed env.speedtest)
  let use_aria2 := env.aria2cAvailable && decide (1 < connections)
  mkYtdlpOpts odir connections use_aria2 hook

/-- The extraction block (lines 126-149): one attempt, one retry with
    `quiet=False`, then classification of the escaping error. -/
def extractPhase (env : Env) (url : String) (opts : YtdlpOpts) : Except String Info :=
  match env.extract 0 url opts with
  | Except.ok i => Except.ok i
  | Except.error _ =>
    match env.extract 1 url (retryOpts opts) with
    | Except.ok i => Except.ok i
    | Except.error e2 => Except.error (classify_error e2)

/-- CPython `PurePath` suffix/stem: index of the last dot of the name. -/
def rfindDot (s : String) : Option Nat :=
  ((s.data.enum.filter (fun p => p.2 == '.')).getLast?).map (fun p => p.1)

/-- `Path(name).suffix` for a bare file name. -/
def pathSuffix (name : String) : String :=
  match rfindDot name with
  | none => ""
  | some i => if 0 < i ∧ i < name.length - 1 then String.mk (name.data.drop i) else ""

/-- `Path(name).stem` for a bare file name. -/
def pathStem (name : String) : String :=
  match rfindDot name with
  | none => name
  | some i => if 0 < i ∧ i < name.length - 1 then String.mk (name.data.take i) else name

/-- The `requested_downloads` loop (lines 154-159): first entry whose
    `filepath` is truthy and exists. -/
def firstExistingReqPath (fs : FS) : List ReqDl → Option String
  | [] => none
  | r :: rest =>
    match r.filepath with
    | some fp =>
      if (fp != "") && existsPath fs fp then some fp else firstExistingReqPath fs rest
    | none => firstExistingReqPath fs rest

/-- Python `max(files, key=mtime)`: first element of maximal mtime. -/
def maxByMtime (files : FS) : Option (String × FileInfo) :=
  match files with
  | [] => none
  | x :: xs =>
    some (xs.foldl (fun best y => if best.2.mtime < y.2.mtime then y else best) x)

/-- File detection, lines 154-159: the `requested_downloads` scan. -/
def locateStep1 (info : Info) (fs : FS) : Option String :=
  match info.requested_downloads with
  | some reqs => firstExistingReqPath fs reqs
  | none => none

/-- File detection, lines 161-164: fall back to the top-level `filepath`. -/
def locateStep2 (info : Info) (fs : FS) : Option String :=
  match locateStep1 info fs with
  | some fp => some fp
  | none =>
    match info.filepath with
    | some fp => if (fp != "") && existsPath fs fp then some fp else none
    | none => none

/-- The file-detection block (lines 152-170). -/
def locateDownloadedFile (info : Info) (fs : FS) : Option String :=
  match locateStep2 info fs with
  | some fp => some fp
  | none => (maxByMtime fs).map (fun e => e.1)

/-- Spec-shaped variant of `firstExistingReqPath`, following the words of the
    file-locator contract: the first entry whose `filepath` field names an
    existing path (no truthiness test). -/
def firstReqPathByContract (fs : FS) : List ReqDl → Option String
  | [] => none
  | r :: rest =>
    match r.filepath with
    | some fp =>
      if existsPath fs fp then some fp else firstReqPathByContract fs rest
    | none => firstReqPathByContract fs rest

/-- Spec-shaped locator, step (a): the first entry of the requested-downloads
    list whose filepath names an existing path. -/
def locateStepA (info : Info) (fs : FS) : Option String :=
  match info.requested_downloads with
  | some reqs => firstReqPathByContract fs reqs
  | none => none

/-- Spec-shaped locator, step (b): a top-level filepath naming an existing
    path. -/
def locateStepB (info : Info) (fs : FS) : Option String :=
  match locateStepA info fs with
  | some fp => some fp
  | none =>
    match info.filepath with
    | some fp => if existsPath fs fp then some fp else none
    | none => none

/-- Spec-shaped locator, following the words of the file-locator contract:
    (a) first requested-download filepath naming an existing path, then
    (b) a top-level filepath naming an existing path, then (c) the most
    recently modified file of the output directory. -/
def locateByContract (info : Info) (fs : FS) : Option String :=
  match locateStepB info fs with
  | some fp => some fp
  | none => (maxByMtime fs).map (fun e => e.1)

/-- `suffix.replace(".", "").upper()` of line 191, modelled character-wise
    (dropping every dot, ASCII uppercasing). -/
def suffixFormat (suffix : String) : String :=
  String.mk ((suffix.data.filter (fun c => !(c == '.'))).map Char.toUpper)

/-- The `"original"` entry appended at lines 186-192. -/
def origEntry (fs : FS) (dl : String) : FileEntry :=
  { name := dl
    type := "original"
    size := statSize fs dl
    format := suffixFormat (pathSuffix dl) }

/-- The `"mp3"` entry appended at lines 228-234. -/
def mp3Entry (fs : FS) (p : String) : FileEntry :=
  { name := p
    type := "mp3"
    size := statSize fs p
    format := "MP3" }

/-- The ffmpeg argv of lines 206-215. -/
def ffmpegCmd (dl mp3Path : String) : List String :=
  ["ffmpeg", "-y", "-i", dl, "-vn", "-codec:a", "libmp3lame",
   "-b:a", "320k", "-ac", "2", "-ar", "44100", mp3Path]

/-- Line 199: the MP3 target path (same stem, `.mp3`, same directory). -/
def mp3TargetPath (dl : String) : String :=
  pathStem dl ++ ".mp3"

/-- Lines 201-204: delete a pre-existing file at the MP3 target path. -/
def preEncodeFS (fs : FS) (p : String) : FS :=
  if existsPath fs p then erasePath fs p else fs

/-- Lines 227-240 on encoder success: append the MP3 entry if the target now
    exists, then drop (and delete) the original when `keep_original` is
    false and the original still exists.  `fs1` is the directory content at
    encoder-invocation time. -/
def convertFilesAfter (env : Env) (fs1 : FS) (dl : String) (keep_original : Bool)
    (files0 : List FileEntry) : List FileEntry :=
  let mp3Path := mp3TargetPath dl
  let fs2 := createFile fs1 mp3Path env.mp3Stat
  let files1 :=
    if existsPath fs2 mp3Path then files0 ++ [mp3Entry fs2 mp3Path] else files0
  if (!keep_original) && existsPath fs2 dl then
    files1.filter (fun f => f.type != "original")
  else files1

/-- The MP3-conversion block (lines 195-240).  Returns the spawned encoder
    commands and either the terminal error or the updated files list. -/
def convertPhase (env : Env) (fs : FS) (dl : String) (keep_original : Bool)
    (files0 : List FileEntry) : List (List String) × Except String (List FileEntry) :=
  if env.ffmpegAvailable then
    let mp3Path := mp3TargetPath dl
    let fs1 := preEncodeFS fs mp3Path
    match env.encoderRun with
    | Except.error stderr =>
      ([ffmpegCmd dl mp3Path], Except.error ("MP3 conversion failed: " ++ stderr))
    | Except.ok _ =>
      ([ffmpegCmd dl mp3Path], Except.ok (convertFilesAfter env fs1 dl keep_original files0))
  else ([], Except.error "ffmpeg not found - MP3 conversion unavailable")

/-- `download_audio_from_youtube` (lines 64-242): the whole pipeline.  The
    first component is the trace of spawned encoder commands. -/
def download_audio_from_youtube (env : Env) (url : String)
    (output_dir : Option String) (convert_to_mp3 keep_original : Bool)
    (has_progress_hook : Bool) : List (List String) × Except String Results :=
  match extractPhase env url (pipelineOpts env output_dir has_progress_hook) with
  | Except.error e => ([], Except.error e)
  | Except.ok info =>
    match locateDownloadedFile info env.fsAfterDownload with
    | none =>
      ([], Except.error "Could not find downloaded audio file. The download may have failed.")
    | some dl =>
      let fs := env.fsAfterDownload
      let files0 := if existsPath fs dl then [origEntry fs dl] else []
      let t := info.title.getD "Unknown Title"
      if convert_to_mp3 then
        let c := convertPhase env fs dl keep_original files0
        (c.1, c.2.map (fun fls => { title := t, status := "success", files := fls }))
      else
        ([], Except.ok { title := t, status := "success", files := files0 })

/-! Concrete environments used to instantiate theorems with hypotheses. -/

/-- Environment where both extraction attempts fail with the bot message. -/
def envC1 : Env :=
  { speedtest := Except.error "offline"
    aria2cAvailable := false
    ffmpegAvailable := false
    extract := fun _ _ _ => Except.error botPattern
    fsAfterDownload := []
    encoderRun := Except.ok ()
    mp3Stat := { size := 0, mtime := 0 } }

/-- Extractor result with no usable metadata. -/
def infoC2 : Info :=
  { requested_downloads := none, filepath := none, title := none }

/-- Environment where extraction succeeds but no file can be located. -/
def envC2 : Env :=
  { speedtest := Except.error "offline"
    aria2cAvailable := false
    ffmpegAvailable := false
    extract := fun _ _ _ => Except.ok infoC2
    fsAfterDownload := []
    encoderRun := Except.ok ()
    mp3Stat := { size := 0, mtime := 0 } }

/-- Extractor result naming the downloaded file. -/
def infoC4 : Info :=
  { requested_downloads := some [{ filepath := some "song.webm" }]
    filepath := none
    title := some "T" }

/-- Environment of a fully successful run with conversion available. -/
def envC4 : Env :=
  { speedtest := Except.error "offline"
    aria2cAvailable := false
    ffmpegAvailable := true
    extract := fun _ _ _ => Except.ok infoC4
    fsAfterDownload := [("song.webm", { size := 2048, mtime := 10 })]
    encoderRun := Except.ok ()
    mp3Stat := { size := 777, mtime := 11 } }

/-- Result of `envC4` with `convert_to_mp3 := true`, `keep_original := false`. -/
def resC4 : Results :=
  { title := "T"
    status := "success"
    files := [{ name := "song.mp3", type := "mp3", size := 777, format := "MP3" }] }

/-- Encoder trace of `envC4` runs with conversion. -/
def trC4 : List (List String) := [ffmpegCmd "song.webm" "song.mp3"]

/-- Environment of a successful run used without conversion. -/
def envC5 : Env :=
  { speedtest := Except.error "offline"
    aria2cAvailable := false
    ffmpegAvailable := true
    extract := fun _ _ _ => Except.ok infoC4
    fsAfterDownload := [("song.webm", { size := 2048, mtime := 10 })]
    encoderRun := Except.ok ()
    mp3Stat := { size := 777, mtime := 11 } }

/-- Result of `envC5` with `convert_to_mp3 := false`. -/
def resC5 : Results :=
  { title := "T"
    status := "success"
    files := [{ name := "song.webm", type := "original", size := 2048, format := "WEBM" }] }

/-- Environment of a successful run with conversion, original kept. -/
def envC6 : Env :=
  { speedtest := Except.error "offline"
    aria2cAvailable := false
    ffmpegAvailable := true
    extract := fun _ _ _ => Except.ok infoC4
    fsAfterDownload := [("song.webm", { size := 2048, mtime := 10 })]
    encoderRun := Except.ok ()
    mp3Stat := { size := 777, mtime := 11 } }

/-- Result of `envC6` with `convert_to_mp3 := true`, `keep_original := true`. -/
def resC6 : Results :=
  { title := "T"
    status := "success"
    files := [{ name := "song.webm", type := "original", size := 2048, format := "WEBM" },
              { name := "song.mp3", type := "mp3", size := 777, format := "MP3" }] }

/-- Encoder trace of `envC6` runs with conversion. -/
def trC6 : List (List String) := [ffmpegCmd "song.webm" "song.mp3"]

/-- A directory holding a stale MP3 next to the downloaded file. -/
def fsC7 : FS :=
  [("a.mp3", { size := 5, mtime := 1 }), ("a.webm", { size := 9, mtime := 2 })]

/-- Environment whose encoder run fails with diagnostics `boom`. -/
def envC7 : Env :=
  { speedtest := Except.error "offline"
    aria2cAvailable := false
    ffmpegAvailable := true
    extract := fun _ _ _ => Except.error "unused"
    fsAfterDownload := fsC7
    encoderRun := Except.error "boom"
    mp3Stat := { size := 0, mtime := 0 } }

/-- Extractor result naming the downloaded file, without a title. -/
def infoC8 : Info :=
  { requested_downloads := some [{ filepath := some "a.webm" }]
    filepath := none
    title := none }

/-- Environment with a successful extraction but no encoder binary. -/
def envC8 : Env :=
  { speedtest := Except.error "offline"
    aria2cAvailable := false
    ffmpegAvailable := false
    extract := fun _ _ _ => Except.ok infoC8
    fsAfterDownload := [("a.webm", { size := 9, mtime := 2 })]
    encoderRun := Except.ok ()
    mp3Stat := { size := 0, mtime := 0 } }

/-! Helper lemmas about the filesystem model. -/

theorem existsPath_erase_self (fs : FS) (p : String) :
    existsPath (erasePath fs p) p = false := by
  simp [existsPath, erasePath, List.any_filter]

theorem existsPath_preEncode_self (fs : FS) (p : String) :
    existsPath (preEncodeFS fs p) p = false := by
  cases h : existsPath fs p with
  | true => simp [preEncodeFS, h, existsPath_erase_self]
  | false => simp [preEncodeFS, h]

theorem existsPath_create_self (fs : FS) (p : String) (fi : FileInfo) :
    existsPath (createFile fs p fi) p = true := by
  simp [existsPath, createFile]

theorem existsPath_create_of (fs : FS) (p q : String) (fi : FileInfo)
    (h : existsPath fs q = true) : existsPath (createFile fs p fi) q = true := by
  simp [existsPath, createFile, List.any_cons]
  right
  simpa [existsPath] using h

theorem existsPath_erase_ne (fs : FS) (p q : String) (h : q ≠ p) :
    existsPath (erasePath fs p) q = existsPath fs q := by
  induction fs with
  | nil => rfl
  | cons e t ih =>
    by_cases hep : e.1 = p
    · have hq : (e.1 == q) = false := by
        rw [beq_eq_false_iff_ne, hep]
        exact fun hh => h hh.symm
      have hne : (!(e.1 == p)) = false := by simp [hep]
      simp only [erasePath, List.filter_cons, hne, if_false, existsPath, List.any_cons, hq,
        Bool.false_or] at ih ⊢
      exact ih
    · have hne : (!(e.1 == p)) = true := by simp [hep]
      simp only [erasePath, List.filter_cons, hne, if_true, existsPath, List.any_cons] at ih ⊢
      rw [ih]

theorem existsPath_preEncode_create (fs : FS) (p dl : String) (fi : FileInfo)
    (hex : existsPath fs dl = true) :
    existsPath (createFile (preEncodeFS fs p) p fi) dl = true := by
  by_cases hd : dl = p
  · subst hd; exact existsPath_create_self ..
  · apply existsPath_create_of
    cases h : existsPath fs p with
    | true => simpa [preEncodeFS, h, existsPath_erase_ne fs p dl hd] using hex
    | false => simpa [preEncodeFS, h] using hex

/-! Helper lemmas about the file locator. -/

theorem firstExistingReqPath_exists (fs : FS) (reqs : List ReqDl) (fp : String)
    (h : firstExistingReqPath fs reqs = some fp) : existsPath fs fp = true := by
  induction reqs with
  | nil => simp [firstExistingReqPath] at h
  | cons r rest ih =>
    rw [firstExistingReqPath] at h
    cases hr : r.filepath with
    | none => rw [hr] at h; exact ih h
    | some g =>
      simp only [hr] at h
      by_cases hc : ((g != "") && existsPath fs g) = true
      · rw [if_pos hc] at h
        cases h
        exact (Bool.and_eq_true_iff.mp hc).2
      · rw [if_neg hc] at h
        exact ih h

theorem foldl_best_mem (xs : List (String × FileInfo)) (x : String × FileInfo) :
    xs.foldl (fun best y => if best.2.mtime < y.2.mtime then y else best) x = x ∨
      xs.foldl (fun best y => if best.2.mtime < y.2.mtime then y else best) x ∈ xs := by
  induction xs generalizing x with
  | nil => left; rfl
  | cons y ys ih =>
    rw [List.foldl_cons]
    rcases ih (if x.2.mtime < y.2.mtime then y else x) with h | h
    · rw [h]
      by_cases hc : x.2.mtime < y.2.mtime
      · right; rw [if_pos hc]; exact List.mem_cons_self _ _
      · left; rw [if_neg hc]
    · right; exact List.mem_cons_of_mem _ h

theorem maxByMtime_mem (fs : FS) (e : String × FileInfo)
    (h : maxByMtime fs = some e) : e ∈ fs := by
  cases fs with
  | nil => simp [maxByMtime] at h
  | cons x xs =>
    rw [maxByMtime] at h
    cases h
    rcases foldl_best_mem xs x with h | h
    · rw [h]; exact List.mem_cons_self _ _
    · exact List.mem_cons_of_mem _ h

theorem mem_existsPath (fs : FS) (e : String × FileInfo) (h : e ∈ fs) :
    existsPath fs e.1 = true := by
  rw [existsPath, List.any_eq_true]
  exact ⟨e, h, by simp⟩

theorem locateStep2_exists (info : Info) (fs : FS) (fp : String)
    (h : locateStep2 info fs = some fp) : existsPath fs fp = true := by
  rw [locateStep2] at h
  cases h1 : locateStep1 info fs with
  | some g =>
    rw [h1] at h
    cases h
    rw [locateStep1] at h1
    cases hrd : info.requested_downloads with
    | some reqs => rw [hrd] at h1; exact firstExistingReqPath_exists fs reqs fp h1
    | none => rw [hrd] at h1; cases h1
  | none =>
    rw [h1] at h
    cases hfp : info.filepath with
    | none => simp only [hfp] at h; cases h
    | some g =>
      simp only [hfp] at h
      by_cases hc : ((g != "") && existsPath fs g) = true
      · rw [if_pos hc] at h
        cases h
        exact (Bool.and_eq_true_iff.mp hc).2
      · rw [if_neg hc] at h
        cases h

theorem locate_some_exists (info : Info) (fs : FS) (dl : String)
    (h : locateDownloadedFile info fs = some dl) : existsPath fs dl = true := by
  rw [locateDownloadedFile] at h
  cases h2 : locateStep2 info fs with
  | some g =>
    rw [h2] at h
    cases h
    exact locateStep2_exists info fs dl h2
  | none =>
    rw [h2] at h
    cases hm : maxByMtime fs with
    | none => rw [hm] at h; cases h
    | some e =>
      rw [hm] at h
      cases h
      exact mem_existsPath fs e (maxByMtime_mem fs e hm)

/-! Equivalence of the coded locator and the contract-shaped locator on
    filesystems with no empty file name. -/

theorem firstReq_eq_contract (fs : FS) (hfs : existsPath fs "" = false)
    (reqs : List ReqDl) :
    firstExistingReqPath fs reqs = firstReqPathByContract fs reqs := by
  induction reqs with
  | nil => rfl
  | cons r rest ih =>
    rw [firstExistingReqPath, firstReqPathByContract]
    cases hr : r.filepath with
    | none => exact ih
    | some g =>
      by_cases hg : g = ""
      · subst hg
        simp [hfs, ih]
      · have : (g != "") = true := by simpa using hg
        simp [this, ih]

theorem locateStep1_eq_contract (info : Info) (fs : FS)
    (hfs : existsPath fs "" = false) :
    locateStep1 info fs = locateStepA info fs := by
  rw [locateStep1, locateStepA]
  cases info.requested_downloads with
  | none => rfl
  | some reqs => exact firstReq_eq_contract fs hfs reqs

theorem locateStep2_eq_contract (info : Info) (fs : FS)
    (hfs : existsPath fs "" = false) :
    locateStep2 info fs = locateStepB info fs := by
  rw [locateStep2, locateStepB, locateStep1_eq_contract info fs hfs]
  cases locateStepA info fs with
  | some g => rfl
  | none =>
    cases hfp : info.filepath with
    | none => rfl
    | some g =>
      by_cases hg : g = ""
      · subst hg
        simp [hfs]
      · have : (g != "") = true := by simpa using hg
        simp [this]

theorem locate_eq_contract (info : Info) (fs : FS)
    (hfs : existsPath fs "" = false) :
    locateDownloadedFile info fs = locateByContract info fs := by
  rw [locateDownloadedFile, locateByContract, locateStep2_eq_contract info fs hfs]

/-! Helper lemmas about the conversion phase and the pipeline. -/

theorem convertPhase_ok (env : Env) (fs : FS) (dl : String) (keep : Bool)
    (files0 : List FileEntry) (tr : List (List String)) (files : List FileEntry)
    (h : convertPhase env fs dl keep files0 = (tr, Except.ok files)) :
    env.ffmpegAvailable = true ∧ env.encoderRun = Except.ok () ∧
      tr = [ffmpegCmd dl (mp3TargetPath dl)] ∧
      files = convertFilesAfter env (preEncodeFS fs (mp3TargetPath dl)) dl keep files0 := by
  rw [convertPhase] at h
  cases hff : env.ffmpegAvailable with
  | false => rw [hff] at h; simp at h
  | true =>
    rw [hff] at h
    cases henc : env.encoderRun with
    | error s => simp only [henc, if_true] at h; simp at h
    | ok u =>
      simp only [henc, if_true] at h
      obtain ⟨h1, h2⟩ := Prod.mk.injEq .. ▸ h
      cases u
      refine ⟨rfl, rfl, h1.symm, ?_⟩
      cases h2
      rfl

theorem convertPhase_err (env : Env) (fs : FS) (dl : String) (keep : Bool)
    (files0 : List FileEntry) (tr : List (List String)) (e : String)
    (h : convertPhase env fs dl keep files0 = (tr, Except.error e)) :
    e = "ffmpeg not found - MP3 conversion unavailable" ∨
      ∃ s, e = "MP3 conversion failed: " ++ s := by
  rw [convertPhase] at h
  cases hff : env.ffmpegAvailable with
  | false =>
    rw [hff] at h
    simp only [Bool.false_eq_true, if_false] at h
    injection h with h1 h2
    injection h2 with h3
    exact Or.inl h3.symm
  | true =>
    rw [hff] at h
    cases henc : env.encoderRun with
    | error s =>
      simp only [henc, if_true] at h
      injection h with h1 h2
      injection h2 with h3
      exact Or.inr ⟨s, h3.symm⟩
    | ok u =>
      simp only [henc, if_true] at h
      simp at h

theorem download_ok_destruct (env : Env) (url : String) (odir : Option String)
    (c k ph : Bool) (tr : List (List String)) (res : Results)
    (h : download_audio_from_youtube env url odir c k ph = (tr, Except.ok res)) :
    ∃ info dl,
      extractPhase env url (pipelineOpts env odir ph) = Except.ok info ∧
      locateDownloadedFile info env.fsAfterDownload = some dl ∧
      res.files = (if c then
          convertFilesAfter env (preEncodeFS env.fsAfterDownload (mp3TargetPath dl)) dl k
            (if existsPath env.fsAfterDownload dl then [origEntry env.fsAfterDownload dl]
             else [])
        else
          (if existsPath env.fsAfterDownload dl then [origEntry env.fsAfterDownload dl]
           else [])) := by
  rw [download_audio_from_youtube] at h
  cases hE : extractPhase env url (pipelineOpts env odir ph) with
  | error e => rw [hE] at h; simp at h
  | ok info =>
    simp only [hE] at h
    cases hL : locateDownloadedFile info env.fsAfterDownload with
    | none => simp only [hL] at h; simp at h
    | some dl =>
      simp only [hL] at h
      refine ⟨info, dl, rfl, hL, ?_⟩
      cases c with
      | false =>
        simp only [Bool.false_eq_true, if_false] at h ⊢
        injection h with h1 h2
        injection h2 with h3
        rw [← h3]
      | true =>
        simp only [if_true] at h ⊢
        rcases hC : convertPhase env env.fsAfterDownload dl k
            (if existsPath env.fsAfterDownload dl
             then [origEntry env.fsAfterDownload dl] else []) with ⟨tr2, r⟩
        simp only [hC] at h
        cases r with
        | error e => simp [Except.map] at h
        | ok files =>
          simp only [Except.map] at h
          injection h with h1 h2
          injection h2 with h3
          rw [← h3]
          simpa using (convertPhase_ok env _ dl k _ tr2 files hC).2.2.2

theorem origEntry_type (fs : FS) (dl : String) :
    (origEntry fs dl).type = "original" := rfl

theorem mp3Entry_type (fs : FS) (p : String) :
    (mp3Entry fs p).type = "mp3" := rfl

/-! Claim theorems. -/

/-- C3: for every input `mbps`, `choose_connections` returns 16 when
    `mbps ≥ 100`, 8 on `[50, 100)`, 4 on `[10, 50)`, 1 on `[0, 10)` and 1
    for every negative input; consequently its result is always `≥ 1`. -/
theorem choose_connections_thresholds (q : ℚ) :
    (100 ≤ q → choose_connections q = 16) ∧
    (50 ≤ q ∧ q < 100 → choose_connections q = 8) ∧
    (10 ≤ q ∧ q < 50 → choose_connections q = 4) ∧
    (0 ≤ q ∧ q < 10 → choose_connections q = 1) ∧
    (q < 0 → choose_connections q = 1) ∧
    1 ≤ choose_connections q := by
  have e : choose_connections q =
      if 100 ≤ q then 16 else if 50 ≤ q then 8 else if 10 ≤ q then 4
      else if 0 ≤ q then 1 else 1 := by
    unfold choose_connections CONNECTION_THRESHOLDS
    by_cases h1 : 100 ≤ q <;> by_cases h2 : 50 ≤ q <;> by_cases h3 : 10 ≤ q <;>
      by_cases h4 : 0 ≤ q <;>
      simp [List.find?, h1, h2, h3, h4]
  refine ⟨fun h => ?_, fun h => ?_, fun h => ?_, fun h => ?_, fun h => ?_, ?_⟩
  · rw [e, if_pos h]
  · rw [e, if_neg (by linarith [h.2]), if_pos h.1]
  · rw [e, if_neg (by linarith [h.2]), if_neg (by linarith [h.2]), if_pos h.1]
  · rw [e, if_neg (by linarith [h.2]), if_neg (by linarith [h.2]),
      if_neg (by linarith [h.2]), if_pos h.1]
  · rw [e, if_neg (by linarith), if_neg (by linarith), if_neg (by linarith),
      if_neg (by linarith)]
  · rw [e]; split_ifs <;> norm_num

/-- Witness for C3 at `mbps = 120` and `mbps = -3`. -/
theorem choose_connections_thresholds_witness :
    choose_connections 120 = 16 ∧ choose_connections (-3) = 1 :=
  ⟨(choose_connections_thresholds 120).1 (by norm_num),
   (choose_connections_thresholds (-3)).2.2.2.2.1 (by norm_num)⟩

/-- C9: the speed estimator never propagates an error: any failure of the
    measurement yields the fixed fallback 10 Mbps, and a successful
    measurement yields the measured bits-per-second divided by 1,000,000. -/
theorem speed_estimator_total_fallback :
    (∀ e : String, measure_download_speed (Except.error e) = 10) ∧
    (∀ b : ℚ, measure_download_speed (Except.ok (some b)) = b / 1000000) :=
  ⟨fun _ => rfl, fun _ => rfl⟩

/-- C10: error classification tests substrings in the fixed precedence order
    bot-verification, private-video, video-unavailable, generic: a message
    containing the bot substring is always classified as bot verification,
    and otherwise a message containing "Private video" is classified as
    private-video even when it also contains "Video unavailable". -/
theorem classify_error_precedence (m : String) :
    (containsSub m botPattern = true → classify_error m = botMsg) ∧
    (containsSub m botPattern = false → containsSub m "Private video" = true →
      classify_error m = privateMsg) ∧
    (containsSub m botPattern = false → containsSub m "Private video" = false →
      containsSub m "Video unavailable" = true → classify_error m = unavailableMsg) ∧
    (containsSub m botPattern = false → containsSub m "Private video" = false →
      containsSub m "Video unavailable" = false →
      classify_error m = "Download failed: " ++ m) := by
  refine ⟨fun h1 => ?_, fun h1 h2 => ?_, fun h1 h2 h3 => ?_, fun h1 h2 h3 => ?_⟩
  · simp [classify_error, h1]
  · simp [classify_error, h1, h2]
  · simp [classify_error, h1, h2, h3]
  · simp [classify_error, h1, h2, h3]

/-- Witness for C10: a message holding both "Private video" and
    "Video unavailable" is classified private-video, and a message holding
    "Private video" plus the bot substring is classified bot-verification. -/
theorem classify_error_precedence_witness :
    classify_error "Private video Video unavailable" = privateMsg ∧
    classify_error "Private video Sign in to confirm you\x27re not a bot" = botMsg :=
  ⟨(classify_error_precedence "Private video Video unavailable").2.1
      (by decide) (by decide),
   (classify_error_precedence
      "Private video Sign in to confirm you\x27re not a bot").1 (by decide)⟩

/-- C1: when the first extraction attempt fails, the pipeline retries exactly
    once with `quiet = false` and otherwise identical options; when the retry
    fails too, the pipeline stops with the error message classified by
    substring match into exactly one of the four descriptive errors, and in
    particular a message containing the bot-verification substring yields the
    bot-verification error, not the generic one. -/
theorem extraction_retry_once_then_classify (env : Env) (url : String)
    (odir : Option String) (c k ph : Bool) (e1 e2 : String)
    (h1 : env.extract 0 url (pipelineOpts env odir ph) = Except.error e1)
    (h2 : env.extract 1 url (retryOpts (pipelineOpts env odir ph)) = Except.error e2) :
    download_audio_from_youtube env url odir c k ph =
      ([], Except.error (classify_error e2)) ∧
    (∀ o : YtdlpOpts, retryOpts o = { o with quiet := false }) ∧
    (classify_error e2 = botMsg ∨ classify_error e2 = privateMsg ∨
      classify_error e2 = unavailableMsg ∨
      classify_error e2 = "Download failed: " ++ e2) ∧
    (containsSub e2 botPattern = true → classify_error e2 = botMsg) := by
  refine ⟨?_, fun o => rfl, ?_, fun hb => by simp [classify_error, hb]⟩
  · rw [download_audio_from_youtube, extractPhase, h1, h2]
  · rw [classify_error]
    split_ifs with hb hp hu
    · exact Or.inl rfl
    · exact Or.inr (Or.inl rfl)
    · exact Or.inr (Or.inr (Or.inl rfl))
    · exact Or.inr (Or.inr (Or.inr rfl))

/-- Witness for C1: both attempts fail with the bot-verification message. -/
theorem extraction_retry_once_then_classify_witness :
    download_audio_from_youtube envC1 "https://example.com/v" none false true false =
      ([], Except.error botMsg) := by
  have h := (extraction_retry_once_then_classify envC1 "https://example.com/v" none
      false true false botPattern botPattern rfl rfl)
  rw [h.1, h.2.2.2 (by decide)]

/-- C2: the produced file is located by checking, in order, the
    requested-downloads filepaths, the top-level filepath, and the most
    recently modified file of the output directory (the coded locator agrees
    with the contract-shaped one whenever no file has an empty name); when
    none yields an existing path the pipeline stops with the terminal
    file-not-found error. -/
theorem file_locator_ordered_then_terminal :
    (∀ info fs, existsPath fs "" = false →
      locateDownloadedFile info fs = locateByContract info fs) ∧
    (∀ env url odir c k ph info,
      env.extract 0 url (pipelineOpts env odir ph) = Except.ok info →
      locateDownloadedFile info env.fsAfterDownload = none →
      download_audio_from_youtube env url odir c k ph =
        ([], Except.error "Could not find downloaded audio file. The download may have failed.")) := by
  refine ⟨fun info fs hfs => locate_eq_contract info fs hfs, ?_⟩
  intro env url odir c k ph info hE hL
  rw [download_audio_from_youtube, extractPhase]
  simp only [hE, hL]

/-- Witness for C2 on an extraction result with no usable metadata over an
    empty output directory. -/
theorem file_locator_ordered_then_terminal_witness :
    locateDownloadedFile infoC2 [] = locateByContract infoC2 [] ∧
    download_audio_from_youtube envC2 "u" none false true false =
      ([], Except.error "Could not find downloaded audio file. The download may have failed.") :=
  ⟨file_locator_ordered_then_terminal.1 infoC2 [] rfl,
   file_locator_ordered_then_terminal.2 envC2 "u" none false true false infoC2 rfl rfl⟩

/-- C5: a successful run with `convert_to_mp3 = false` returns a files list
    holding exactly one entry, of type "original". -/
theorem no_convert_single_original (env : Env) (url : String)
    (odir : Option String) (k ph : Bool) (tr : List (List String)) (res : Results)
    (h : download_audio_from_youtube env url odir false k ph = (tr, Except.ok res)) :
    res.files.length = 1 ∧ ∀ f ∈ res.files, f.type = "original" := by
  obtain ⟨info, dl, hE, hL, hf⟩ := download_ok_destruct env url odir false k ph tr res h
  have hex := locate_some_exists info env.fsAfterDownload dl hL
  simp only [Bool.false_eq_true, if_false, hex, if_true] at hf
  rw [hf]
  refine ⟨rfl, ?_⟩
  intro f hfm
  rw [List.mem_singleton] at hfm
  rw [hfm]
  rfl

/-- Witness for C5 on a fully successful conversion-free run. -/
theorem no_convert_single_original_witness :
    resC5.files.length = 1 ∧ ∀ f ∈ resC5.files, f.type = "original" :=
  no_convert_single_original envC5 "u" none true false [] resC5 rfl

/-- C4: a successful run with `convert_to_mp3 = true` and
    `keep_original = false` returns a files list with exactly one "mp3"
    entry and no "original" entry. -/
theorem convert_discards_original (env : Env) (url : String)
    (odir : Option String) (ph : Bool) (tr : List (List String)) (res : Results)
    (h : download_audio_from_youtube env url odir true false ph = (tr, Except.ok res)) :
    (res.files.filter (fun f => f.type == "mp3")).length = 1 ∧
    (res.files.filter (fun f => f.type == "original")).length = 0 := by
  obtain ⟨info, dl, hE, hL, hf⟩ := download_ok_destruct env url odir true false ph tr res h
  have hex := locate_some_exists info env.fsAfterDownload dl hL
  simp only [if_true, hex] at hf
  rw [convertFilesAfter] at hf
  have hmp3 := existsPath_create_self
    (preEncodeFS env.fsAfterDownload (mp3TargetPath dl)) (mp3TargetPath dl) env.mp3Stat
  have hdl := existsPath_preEncode_create env.fsAfterDownload (mp3TargetPath dl) dl
    env.mp3Stat hex
  simp only [hmp3, if_true, hdl, Bool.not_false, Bool.true_and] at hf
  rw [hf]
  exact ⟨rfl, rfl⟩

/-- Witness for C4 on a fully successful converting run. -/
theorem convert_discards_original_witness :
    (resC4.files.filter (fun f => f.type == "mp3")).length = 1 ∧
    (resC4.files.filter (fun f => f.type == "original")).length = 0 :=
  convert_discards_original envC4 "u" none false trC4 resC4 rfl

/-- C6: every successful run, whatever the flags, returns a files list with
    at most one "original" entry and at most one "mp3" entry. -/
theorem files_at_most_one_of_each (env : Env) (url : String)
    (odir : Option String) (c k ph : Bool) (tr : List (List String)) (res : Results)
    (h : download_audio_from_youtube env url odir c k ph = (tr, Except.ok res)) :
    (res.files.filter (fun f => f.type == "original")).length ≤ 1 ∧
    (res.files.filter (fun f => f.type == "mp3")).length ≤ 1 := by
  obtain ⟨info, dl, hE, hL, hf⟩ := download_ok_destruct env url odir c k ph tr res h
  have hex := locate_some_exists info env.fsAfterDownload dl hL
  cases c with
  | false =>
    simp only [Bool.false_eq_true, if_false, hex, if_true] at hf
    rw [hf]
    constructor <;> simp [origEntry_type]
  | true =>
    simp only [if_true, hex] at hf
    rw [convertFilesAfter] at hf
    have hmp3 := existsPath_create_self
      (preEncodeFS env.fsAfterDownload (mp3TargetPath dl)) (mp3TargetPath dl) env.mp3Stat
    have hdl := existsPath_preEncode_create env.fsAfterDownload (mp3TargetPath dl) dl
      env.mp3Stat hex
    cases k with
    | false =>
      simp only [hmp3, if_true, hdl, Bool.not_false, Bool.true_and] at hf
      rw [hf]
      constructor <;> simp [origEntry_type, mp3Entry_type]
    | true =>
      simp only [hmp3, if_true, hdl, Bool.not_true, Bool.false_and, Bool.false_eq_true,
        if_false] at hf
      rw [hf]
      constructor <;> simp [origEntry_type, mp3Entry_type]

/-- Witness for C6 on a successful converting run that keeps the original. -/
theorem files_at_most_one_of_each_witness :
    (resC6.files.filter (fun f => f.type == "original")).length ≤ 1 ∧
    (resC6.files.filter (fun f => f.type == "mp3")).length ≤ 1 :=
  files_at_most_one_of_each envC6 "u" none true true false trC6 resC6 rfl

/-- C7: when conversion is requested and a file already exists at the MP3
    target path it is deleted before the encoder is invoked, so conversion
    over a directory holding a stale MP3 behaves exactly as without it, and
    the conversion step can only fail with the encoder-missing or the
    conversion-failed error, never a duplicate/already-exists one. -/
theorem mp3_overwrite_before_encode (fs : FS) (p : String) (env : Env)
    (dl : String) (k : Bool) (files0 : List FileEntry) :
    existsPath (preEncodeFS fs p) p = false ∧
    (existsPath fs (mp3TargetPath dl) = true →
      convertPhase env fs dl k files0 =
        convertPhase env (erasePath fs (mp3TargetPath dl)) dl k files0) ∧
    (∀ tr e, convertPhase env fs dl k files0 = (tr, Except.error e) →
      e = "ffmpeg not found - MP3 conversion unavailable" ∨
      ∃ s, e = "MP3 conversion failed: " ++ s) := by
  refine ⟨existsPath_preEncode_self fs p, ?_, ?_⟩
  · intro hex
    have h1 : preEncodeFS fs (mp3TargetPath dl) = erasePath fs (mp3TargetPath dl) := by
      rw [preEncodeFS, if_pos hex]
    have h2 : preEncodeFS (erasePath fs (mp3TargetPath dl)) (mp3TargetPath dl) =
        erasePath fs (mp3TargetPath dl) := by
      rw [preEncodeFS, if_neg (by simp [existsPath_erase_self])]
    simp only [convertPhase]
    rw [h1, h2]
  · exact fun tr e hh => convertPhase_err env fs dl k files0 tr e hh

/-- Witness for C7 on a directory holding a stale `a.mp3` and a failing
    encoder run. -/
theorem mp3_overwrite_before_encode_witness :
    existsPath (preEncodeFS fsC7 "a.mp3") "a.mp3" = false ∧
    convertPhase envC7 fsC7 "a.webm" true [] =
      convertPhase envC7 (erasePath fsC7 (mp3TargetPath "a.webm")) "a.webm" true [] ∧
    ("MP3 conversion failed: boom" = "ffmpeg not found - MP3 conversion unavailable" ∨
      ∃ s, "MP3 conversion failed: boom" = "MP3 conversion failed: " ++ s) := by
  have h := mp3_overwrite_before_encode fsC7 "a.mp3" envC7 "a.webm" true []
  exact ⟨h.1, h.2.1 (by decide),
    h.2.2 [ffmpegCmd "a.webm" "a.mp3"] "MP3 conversion failed: boom" rfl⟩

/-- C8: with `convert_to_mp3 = true` and the encoder binary absent, the
    conversion step fails with the encoder-unavailable error and an empty
    spawn trace (no encoder process started, no retry), and so does the whole
    pipeline once a file has been located. -/
theorem encoder_missing_fails_before_spawn (env : Env) (url : String)
    (odir : Option String) (k ph : Bool) (hff : env.ffmpegAvailable = false) :
    (∀ fs dl files0, convertPhase env fs dl k files0 =
      ([], Except.error "ffmpeg not found - MP3 conversion unavailable")) ∧
    (∀ info dl, env.extract 0 url (pipelineOpts env odir ph) = Except.ok info →
      locateDownloadedFile info env.fsAfterDownload = some dl →
      download_audio_from_youtube env url odir true k ph =
        ([], Except.error "ffmpeg not found - MP3 conversion unavailable")) := by
  constructor
  · intro fs dl files0
    rw [convertPhase, hff]
    simp
  · intro info dl hE hL
    rw [download_audio_from_youtube, extractPhase]
    simp only [hE, hL, if_true, convertPhase, hff, Bool.false_eq_true, if_false]
    simp [Except.map]

/-- Witness for C8 on an environment with no encoder binary. -/
theorem encoder_missing_fails_before_spawn_witness :
    convertPhase envC8 [("a.webm", { size := 9, mtime := 2 })] "a.webm" true [] =
      ([], Except.error "ffmpeg not found - MP3 conversion unavailable") ∧
    download_audio_from_youtube envC8 "u" none true true false =
      ([], Except.error "ffmpeg not found - MP3 conversion unavailable") := by
  have h := encoder_missing_fails_before_spawn envC8 "u" none true false rfl
  exact ⟨h.1 _ "a.webm" [], h.2 infoC8 "a.webm" rfl rfl⟩

end DownloaderCore
